import Mathlib

/-!
Verification of the esp32-sdcard repository: a shallow embedding of
`src/lib.rs` (retry executor, CSV formatter, filename generator) and of the
staged bring-up pipeline and steady-state logging loop of `src/bin/main.rs`,
with theorems settling the specification's claims.

Modelling conventions:
* A Rust `FnMut` operation passed to the retry executor is modelled as a
  function from the (1-based) invocation index to that invocation's
  `Result`, embedded as `Except`.
* Machine integers are `Nat`, with `% 2^32` written explicitly where `u32`
  wrap-around matters (the loop counter).
* Side effects (operation invocations, inter-attempt delays, the bus
  reconfiguration, record writes, flushes) are reified as event lists, so
  "is invoked exactly n times" becomes a statement about event counts.
-/

namespace Esp32Sdcard

/-- Constant `MAX_RETRIES` from `src/lib.rs`: maximum number of retries for SD card
operations. -/
def MAX_RETRIES : Nat := 4

/-- Events emitted by one run of the retry executor: an invocation of the
wrapped operation, or one 500 ms inter-attempt delay. -/
inductive REv where
  | call : REv
  | delay : REv
deriving DecidableEq, Repr

/-- The body of `retry_with_backoff`'s `for attempt in 1..=MAX_RETRIES` loop.
`fuel` is the number of loop iterations the range still allows, `attempt` the
current attempt index.  Each iteration invokes the operation (one `REv.call`);
on success it returns the value at once; on failure of the final attempt it
returns `none`; otherwise it sleeps 500 ms (one `REv.delay`) and retries.
Falling out of the range yields the trailing `None` of the source. -/
def retryAux (op : Nat → Except ε α) : Nat → Nat → Option α × List REv
  | 0, _ => (none, [])
  | fuel + 1, attempt =>
    match op attempt with
    | .ok v => (some v, [REv.call])
    | .error _ =>
      if MAX_RETRIES ≤ attempt then (none, [REv.call])
      else
        let r := retryAux op fuel (attempt + 1)
        (r.1, REv.call :: REv.delay :: r.2)

/-- Function `retry_with_backoff` from `src/lib.rs`: run the operation up to
`MAX_RETRIES` times with a 500 ms delay between attempts, returning the first
success or `none`.  The second component is the emitted event trace. -/
def retry_with_backoff (op : Nat → Except ε α) : Option α × List REv :=
  retryAux op MAX_RETRIES 1

/-! ### CSV record formatter (`format_csv_line` in `src/lib.rs`) -/


/-- Decimal digits of `n`, most significant first, as `itoa` produces them.
`fuel` bounds the loop (any `fuel > n` suffices); `acc` accumulates the
low-order digits already peeled off. -/
def decDigitsCore : Nat → Nat → List Nat → List Nat
  | 0, _, acc => acc
  | fuel + 1, n, acc =>
    if n < 10 then n :: acc
    else decDigitsCore fuel (n / 10) (n % 10 :: acc)

/-- ASCII bytes of the decimal representation of `n`, as written by
`itoa::Buffer::format` (`0` is rendered as the single byte `"0"`). -/
def decimalBytes (n : Nat) : List Nat :=
  (decDigitsCore (n + 1) n []).map (· + 48)

/-- One step of the byte-copy loop of `format_csv_line`: write `b` at the
cursor if the cursor is still inside the buffer, else leave everything
unchanged (the source `break`s, and the cursor never moves again). -/
def writeByte (bc : List Nat × Nat) (b : Nat) : List Nat × Nat :=
  if bc.2 < bc.1.length then (bc.1.set bc.2 b, bc.2 + 1) else bc

/-- Function `format_csv_line` from `src/lib.rs`: write
`timestamp ++ ",count," ++ counter ++ "\n"` byte by byte into `buffer`,
truncating at the buffer's end, and return the final buffer together with
the number of bytes written. -/
def format_csv_line (buffer : List Nat) (timestamp : Nat) (counter : Nat) :
    List Nat × Nat :=
  ([decimalBytes timestamp, [44, 99, 111, 117, 110, 116, 44],
    decimalBytes counter, [10]] : List (List Nat)).foldl
    (fun bc part => part.foldl writeByte bc) (buffer, 0)

/-- The complete formatted record, before any truncation: the bytes of
`"timestamp,count,counter\n"`. -/
def csvLine (timestamp : Nat) (counter : Nat) : List Nat :=
  decimalBytes timestamp ++ [44, 99, 111, 117, 110, 116, 44] ++
    decimalBytes counter ++ [10]

/-! ### Random filename generator (`generate_random_filename` in
`src/lib.rs`) -/


/-- The `CHARS` charset of `generate_random_filename`:
`"ABCDEFGHIJKLMNOPQRSTUVWXYZ0123456789"` as ASCII bytes. -/
def CHARS : List Nat :=
  [65, 66, 67, 68, 69, 70, 71, 72, 73, 74, 75, 76, 77, 78, 79, 80, 81, 82,
   83, 84, 85, 86, 87, 88, 89, 90, 48, 49, 50, 51, 52, 53, 54, 55, 56, 57]

/-- Function `generate_random_filename` from `src/lib.rs`.  The RNG is modelled as
the stream of `u32` values returned by successive `rng.random()` calls
(`rng i` being the draw used for position `i`); each draw is reduced
mod `2^32` (the `u32` range) and then mod `CHARS.len()`.  The result is the
12-byte filename buffer: 8 charset bytes followed by `".CSV"`. -/
def generate_random_filename (rng : Nat → Nat) : List Nat :=
  (List.range 8).map (fun i => CHARS.getD ((rng i % 2 ^ 32) % CHARS.length) 0)
    ++ [46, 67, 83, 86]

/-! ### Staged bring-up pipeline (`main` in `src/bin/main.rs`)

The five stages are: 1 — SD card initialization (`sdcard.num_bytes()`),
2 — volume 0 open, 3 — root directory open, 4 — CSV file open/create,
5 — CSV header write.  Each stage's underlying fallible operation is
modelled, as in the retry executor, by the stream of its per-invocation
outcomes.  The one-time SPI bus reconfiguration between stage 3 and stage 4
(`apply_config` + `expect`) is modelled by a boolean outcome `reconfigOk`;
its failure panics the process, which the model records as `panicked`. -/


/-- Pipeline events: the `k`-th stage's operation being invoked once, one
inter-attempt delay inside stage `k`, or the bus-speed reconfiguration. -/
inductive PEv where
  | stageCall (k : Nat)
  | stageDelay (k : Nat)
  | reconfig
deriving DecidableEq, Repr

/-- Tag the retry executor's events with the stage that ran it. -/
def tagRetry (k : Nat) (evs : List REv) : List PEv :=
  evs.map (fun e =>
    match e with
    | REv.call => PEv.stageCall k
    | REv.delay => PEv.stageDelay k)

/-- Outcome of the bring-up pipeline: whether the fail-fast bus
reconfiguration panicked, each stage's gating result (`sd_size`, `volume0`,
`root_dir`, the freshly opened `file0`, and the post-header `file` the loop
receives), and the emitted event trace. -/
structure PipeOut where
  panicked : Bool
  sd_size : Option Nat
  volume0 : Option Unit
  root_dir : Option Unit
  file0 : Option Unit
  file : Option Unit
  trace : List PEv
deriving Repr

/-- A stage's `if gate { retry_with_backoff(op) } else { None }` gating
pattern: the retry executor runs only when the previous stage's result held
a value; otherwise nothing runs and the stage reports `None`. -/
def gatedRetry (gate : Bool) (op : Nat → Except ε α) : Option α × List REv :=
  if gate then retry_with_backoff op else (none, [])

/-- Stage 1: SD card initialization (`sdcard.num_bytes()`), always run. -/
def pipeR1 (s1 : Nat → Except Unit Nat) : Option Nat × List REv :=
  retry_with_backoff s1

/-- Stage 2: volume 0 open, gated on stage 1 (`sd_size.is_some()`). -/
def pipeR2 (s1 : Nat → Except Unit Nat) (s2 : Nat → Except Unit Unit) :
    Option Unit × List REv :=
  gatedRetry (pipeR1 s1).1.isSome s2

/-- Stage 3: root directory open, gated on stage 2. -/
def pipeR3 (s1 : Nat → Except Unit Nat) (s2 s3 : Nat → Except Unit Unit) :
    Option Unit × List REv :=
  gatedRetry (pipeR2 s1 s2).1.isSome s3

/-- Stage 4: CSV file open/create, gated on stage 3. -/
def pipeR4 (s1 : Nat → Except Unit Nat) (s2 s3 s4 : Nat → Except Unit Unit) :
    Option Unit × List REv :=
  gatedRetry (pipeR3 s1 s2 s3).1.isSome s4

/-- Stage 5: CSV header write, gated on stage 4 (`if let Some(ref mut f)`). -/
def pipeR5 (s1 : Nat → Except Unit Nat)
    (s2 s3 s4 s5 : Nat → Except Unit Unit) : Option Unit × List REv :=
  gatedRetry (pipeR4 s1 s2 s3 s4).1.isSome s5

/-- The bring-up pipeline of `main` (`src/bin/main.rs` lines 88–167):
stage 1 unconditionally, stages 2–4 each gated on the previous stage's
result being `Some`, the unconditional bus reconfiguration between stage 3
and stage 4 (fatal on failure, `panicked := true`, in which case stages 4
and 5 never run), and the header write (stage 5) gated on stage 4, whose
definitive failure discards the file handle (`file := None`). -/
def runPipeline (s1 : Nat → Except Unit Nat)
    (s2 s3 s4 s5 : Nat → Except Unit Unit) (reconfigOk : Bool) : PipeOut :=
  if reconfigOk then
    { panicked := false
      sd_size := (pipeR1 s1).1
      volume0 := (pipeR2 s1 s2).1
      root_dir := (pipeR3 s1 s2 s3).1
      file0 := (pipeR4 s1 s2 s3 s4).1
      file := if (pipeR4 s1 s2 s3 s4).1.isSome then
          (if (pipeR5 s1 s2 s3 s4 s5).1.isSome then (pipeR4 s1 s2 s3 s4).1
           else none)
        else none
      trace := tagRetry 1 (pipeR1 s1).2 ++ tagRetry 2 (pipeR2 s1 s2).2 ++
        tagRetry 3 (pipeR3 s1 s2 s3).2 ++ [PEv.reconfig] ++
        tagRetry 4 (pipeR4 s1 s2 s3 s4).2 ++
        tagRetry 5 (pipeR5 s1 s2 s3 s4 s5).2 }
  else
    { panicked := true
      sd_size := (pipeR1 s1).1
      volume0 := (pipeR2 s1 s2).1
      root_dir := (pipeR3 s1 s2 s3).1
      file0 := none
      file := none
      trace := tagRetry 1 (pipeR1 s1).2 ++ tagRetry 2 (pipeR2 s1 s2).2 ++
        tagRetry 3 (pipeR3 s1 s2 s3).2 ++ [PEv.reconfig] }

/-! ### Steady-state counting loop (`main` in `src/bin/main.rs`,
lines 169–200)

Loop-iteration effects are reified as events: one record-write attempt
(carrying the formatted line length and whether the write succeeded) and
one flush.  The write and flush outcomes of each iteration are oracles,
like the stage operations above; the flush outcome is a parameter even
though the source discards it (`let _ = file.flush()`), so the model
visibly ignores it. -/


/-- The modulus `2^32` of the wrapping `u32` counter `counter += 1`. -/
def U32_MOD : Nat := 4294967296

/-- Session state owned by the loop: the `u32` counter (kept reduced mod
`2^32`) and the optional file handle. -/
structure LState where
  counter : Nat
  file : Option Unit
deriving DecidableEq, Repr

/-- Observable storage events of one loop iteration. -/
inductive LEv where
  | write (len : Nat) (ok : Bool)
  | flush
deriving DecidableEq, Repr

/-- Is this event a record-write attempt? -/
def isWriteEv : LEv → Bool
  | .write _ _ => true
  | .flush => false

/-- Number of record-write attempts in an event list. -/
def countWrites (evs : List LEv) : Nat := evs.countP isWriteEv

/-- One iteration of the counting loop: increment the counter (wrapping as
`u32`), then — only if a file handle is present — format the record into
the 64-byte buffer and attempt one write; on write success, flush (ignoring
the flush outcome) exactly when `counter % 10 == 0`; on write failure just
log.  The 1-second sleep has no observable effect here. -/
def loopStep (writeRes : Except Unit Unit) (_flushRes : Except Unit Unit)
    (timestamp : Nat) (st : LState) : LState × List LEv :=
  let counter := (st.counter + 1) % U32_MOD
  match st.file with
  | none => ({ counter, file := none }, [])
  | some u =>
    let buffer : List Nat := List.replicate 64 0
    let line_length := (format_csv_line buffer timestamp counter).2
    match writeRes with
    | .ok _ =>
      if counter % 10 = 0 then
        ({ counter, file := some u }, [LEv.write line_length true, LEv.flush])
      else
        ({ counter, file := some u }, [LEv.write line_length true])
    | .error _ =>
      ({ counter, file := some u }, [LEv.write line_length false])

/-- Run `n` iterations of the loop from state `st`; `wr`, `fr`, `ts` give
iteration `i`'s write outcome, flush outcome and timestamp. -/
def loopRun (wr fr : Nat → Except Unit Unit) (ts : Nat → Nat) :
    Nat → Nat → LState → LState × List LEv
  | _, 0, st => (st, [])
  | i, n + 1, st =>
    let r1 := loopStep (wr i) (fr i) (ts i) st
    let r2 := loopRun wr fr ts (i + 1) n r1.1
    (r2.1, r1.2 ++ r2.2)

/-- The bring-up stage that an event belongs to (`0` for the bus
reconfiguration, which is not part of any stage). -/
def evStage : PEv → Nat
  | .stageCall k => k
  | .stageDelay k => k
  | .reconfig => 0

/-! Theorems: supporting lemmas about the embedded definitions, the
claim theorems with their witnesses, and the counterexamples. -/

/-- If every attempt the executor can make fails, `retry_with_backoff`
returns `none` after exactly four invocations separated by three delays. -/
theorem retry_trace_all_fail {ε α : Type} (op : Nat → Except ε α)
    (h : ∀ i, 1 ≤ i → i ≤ MAX_RETRIES → ∃ e, op i = Except.error e) :
    retry_with_backoff op =
      (none, [REv.call, REv.delay, REv.call, REv.delay, REv.call, REv.delay,
              REv.call]) := by
  obtain ⟨e1, h1⟩ := h 1 (by decide) (by decide)
  obtain ⟨e2, h2⟩ := h 2 (by decide) (by decide)
  obtain ⟨e3, h3⟩ := h 3 (by decide) (by decide)
  obtain ⟨e4, h4⟩ := h 4 (by decide) (by decide)
  simp [retry_with_backoff, MAX_RETRIES, retryAux, h1, h2, h3, h4]

/-- C3: for every operation that fails some number `k < MAX_RETRIES` of
times and then succeeds with value `v`, `retry_with_backoff` returns
`Some v`, invokes the operation exactly `k+1` times (no further attempts
after the success), and invokes the inter-attempt delay exactly `k`
times. -/
theorem retry_trace_succeeds_after {ε α : Type} (op : Nat → Except ε α)
    (k : Nat) (v : α) (hk : k < MAX_RETRIES)
    (hf : ∀ i, 1 ≤ i → i ≤ k → ∃ e, op i = Except.error e)
    (hs : op (k + 1) = Except.ok v) :
    (retry_with_backoff op).1 = some v ∧
      (retry_with_backoff op).2.count REv.call = k + 1 ∧
      (retry_with_backoff op).2.count REv.delay = k := by
  rw [MAX_RETRIES] at hk
  interval_cases k
  · simp [retry_with_backoff, MAX_RETRIES, retryAux, hs]
  · obtain ⟨e1, h1⟩ := hf 1 (by decide) (by decide)
    simp [retry_with_backoff, MAX_RETRIES, retryAux, h1, hs, List.count_cons]
  · obtain ⟨e1, h1⟩ := hf 1 (by decide) (by decide)
    obtain ⟨e2, h2⟩ := hf 2 (by decide) (by decide)
    simp [retry_with_backoff, MAX_RETRIES, retryAux, h1, h2, hs,
      List.count_cons]
  · obtain ⟨e1, h1⟩ := hf 1 (by decide) (by decide)
    obtain ⟨e2, h2⟩ := hf 2 (by decide) (by decide)
    obtain ⟨e3, h3⟩ := hf 3 (by decide) (by decide)
    simp [retry_with_backoff, MAX_RETRIES, retryAux, h1, h2, h3, hs,
      List.count_cons]

theorem writeByte_length (bc : List Nat × Nat) (b : Nat) :
    (writeByte bc b).1.length = bc.1.length := by
  unfold writeByte
  split <;> simp

theorem foldl_writeByte_length (bs : List Nat) :
    ∀ (buf : List Nat) (c : Nat),
      ((bs.foldl writeByte (buf, c)).1).length = buf.length := by
  induction bs with
  | nil => intro buf c; rfl
  | cons b bs ih =>
    intro buf c
    rw [List.foldl_cons]
    rcases hw : writeByte (buf, c) b with ⟨buf1, c1⟩
    have hl : buf1.length = buf.length := by
      have := writeByte_length (buf, c) b
      rw [hw] at this; exact this
    rw [← hl]
    exact ih buf1 c1

theorem foldl_writeByte_cursor_le (bs : List Nat) :
    ∀ (buf : List Nat) (c : Nat), c ≤ buf.length →
      (bs.foldl writeByte (buf, c)).2 ≤ buf.length := by
  induction bs with
  | nil => intro buf c h; exact h
  | cons b bs ih =>
    intro buf c h
    rw [List.foldl_cons]
    unfold writeByte
    split
    · have h1 := ih (buf.set c b) (c + 1) (by simpa using ‹c < buf.length›)
      simpa using h1
    · exact ih buf c h

/-- Copying `bs` into `pre ++ rest` starting at cursor `pre.length`, when
`rest` has room for all of `bs`, overwrites the front of `rest` and advances
the cursor by `bs.length`. -/
theorem writeList_at_cursor (bs : List Nat) :
    ∀ (pre rest : List Nat), bs.length ≤ rest.length →
      bs.foldl writeByte (pre ++ rest, pre.length) =
        (pre ++ bs ++ rest.drop bs.length, pre.length + bs.length) := by
  induction bs with
  | nil => intro pre rest _; simp
  | cons b bs ih =>
    intro pre rest h
    rcases rest with _ | ⟨r, rs⟩
    · simp at h
    rw [List.foldl_cons]
    have hcur : pre.length < (pre ++ r :: rs).length := by
      simp
    have hw : writeByte (pre ++ r :: rs, pre.length) b =
        ((pre ++ [b]) ++ rs, (pre ++ [b]).length) := by
      unfold writeByte
      rw [if_pos hcur]
      rw [List.set_append_right _ _ (Nat.le_refl _)]
      simp
    rw [hw]
    rw [ih (pre ++ [b]) rs (by simpa using h)]
    simp [List.append_assoc]
    omega

/-- Writing a sequence of parts one after another from cursor `pre.length`
is writing their concatenation, provided the remaining space holds it all. -/
theorem foldl_write_parts (parts : List (List Nat)) :
    ∀ (pre rest : List Nat), (parts.map List.length).sum ≤ rest.length →
      parts.foldl (fun bc part => part.foldl writeByte bc)
          (pre ++ rest, pre.length) =
        (pre ++ parts.flatten ++ rest.drop parts.flatten.length,
         pre.length + parts.flatten.length) := by
  induction parts with
  | nil => intro pre rest _; simp
  | cons p parts ih =>
    intro pre rest h
    have hp : p.length ≤ rest.length := by
      simp at h; omega
    rw [List.foldl_cons, writeList_at_cursor p pre rest hp]
    have hsum : (parts.map List.length).sum ≤ (rest.drop p.length).length := by
      simp at h ⊢; omega
    have := ih (pre ++ p) (rest.drop p.length) hsum
    rw [show pre ++ p ++ rest.drop p.length =
          (pre ++ p) ++ rest.drop p.length by simp [List.append_assoc],
        show pre.length + p.length = (pre ++ p).length by simp,
        this]
    simp [List.append_assoc, List.drop_drop]
    omega

/-- When the buffer can hold the whole record, `format_csv_line` writes
exactly `csvLine timestamp counter` at the front of the buffer and returns
its length. -/
theorem format_csv_line_spec (buffer : List Nat) (timestamp counter : Nat)
    (h : (csvLine timestamp counter).length ≤ buffer.length) :
    format_csv_line buffer timestamp counter =
      (csvLine timestamp counter ++
         buffer.drop (csvLine timestamp counter).length,
       (csvLine timestamp counter).length) := by
  have hj : ([decimalBytes timestamp, [44, 99, 111, 117, 110, 116, 44],
      decimalBytes counter, [10]] : List (List Nat)).flatten =
        csvLine timestamp counter := by
    simp only [List.flatten_cons, List.flatten_nil, List.append_nil,
      List.append_assoc, csvLine]
  have hlen : (([decimalBytes timestamp, [44, 99, 111, 117, 110, 116, 44],
      decimalBytes counter, [10]] : List (List Nat)).map List.length).sum =
        (csvLine timestamp counter).length := by
    simp only [List.map_cons, List.map_nil, List.sum_cons, List.sum_nil,
      csvLine, List.length_append, List.length_cons, List.length_nil]
    omega
  have hs : (([decimalBytes timestamp, [44, 99, 111, 117, 110, 116, 44],
      decimalBytes counter, [10]] : List (List Nat)).map List.length).sum ≤
        buffer.length := by
    rw [hlen]
    exact h
  have key := foldl_write_parts
    [decimalBytes timestamp, [44, 99, 111, 117, 110, 116, 44],
     decimalBytes counter, [10]] [] buffer (by simpa using hs)
  rw [hj] at key
  simp only [List.nil_append, List.length_nil, Nat.zero_add] at key
  exact key

/-- Digit-count bound for the core digit loop: a number below `10^k` yields
at most `k` digits (for `k ≥ 1`), on top of whatever is already in `acc`. -/
theorem decDigitsCore_length (n : Nat) :
    ∀ (fuel : Nat) (acc : List Nat) (k : Nat), n < fuel → n < 10 ^ k →
      1 ≤ k → (decDigitsCore fuel n acc).length ≤ k + acc.length := by
  induction n using Nat.strong_induction_on with
  | _ n ih =>
    intro fuel acc k hfuel hk hk1
    match fuel, hfuel with
    | fuel + 1, _ =>
      rw [decDigitsCore]
      by_cases h10 : n < 10
      · simp only [if_pos h10, List.length_cons]
        omega
      · rw [if_neg h10]
        have hn : n / 10 < n := Nat.div_lt_self (by omega) (by norm_num)
        have hk2 : 2 ≤ k := by
          by_contra hc
          have : k = 1 := by omega
          rw [this] at hk
          simp at hk
          omega
        have hdiv : n / 10 < 10 ^ (k - 1) := by
          apply Nat.div_lt_of_lt_mul
          have : 10 * 10 ^ (k - 1) = 10 ^ k := by
            rw [← pow_succ']
            congr 1
            omega
          omega
        have := ih (n / 10) hn fuel (n % 10 :: acc) (k - 1) (by omega) hdiv
          (by omega)
        simp only [List.length_cons] at this
        omega

/-- The representation `decimalBytes n` has at most `k` bytes when `n < 10^k` (for `k ≥ 1`). -/
theorem decimalBytes_length_le (n k : Nat) (hk : n < 10 ^ k) (h1 : 1 ≤ k) :
    (decimalBytes n).length ≤ k := by
  rw [decimalBytes, List.length_map]
  have := decDigitsCore_length n (n + 1) [] k (Nat.lt_succ_self n) hk h1
  simpa using this

/-- A record line for a `u64` timestamp and `u32` counter is at most
38 bytes: at most 20 timestamp digits, `",count,"` (7 bytes), at most 10
counter digits, and the newline. -/
theorem csvLine_length_le (timestamp counter : Nat)
    (ht : timestamp < 2 ^ 64) (hc : counter < 2 ^ 32) :
    (csvLine timestamp counter).length ≤ 38 := by
  have h1 : (decimalBytes timestamp).length ≤ 20 := by
    apply decimalBytes_length_le
    · calc timestamp < 2 ^ 64 := ht
        _ ≤ 10 ^ 20 := by norm_num
    · norm_num
  have h2 : (decimalBytes counter).length ≤ 10 := by
    apply decimalBytes_length_le
    · calc counter < 2 ^ 32 := hc
        _ ≤ 10 ^ 10 := by norm_num
    · norm_num
  simp only [csvLine, List.length_append, List.length_cons, List.length_nil]
  omega

theorem generate_random_filename_length (rng : Nat → Nat) :
    (generate_random_filename rng).length = 12 := by
  simp [generate_random_filename]

theorem mem_tagRetry {e : PEv} {k : Nat} {evs : List REv}
    (h : e ∈ tagRetry k evs) :
    e = PEv.stageCall k ∨ e = PEv.stageDelay k := by
  simp only [tagRetry, List.mem_map] at h
  obtain ⟨x, _, rfl⟩ := h
  cases x
  · exact Or.inl rfl
  · exact Or.inr rfl

@[simp]
theorem count_tagRetry_stageCall {j k : Nat} (h : j ≠ k) (evs : List REv) :
    (tagRetry k evs).count (PEv.stageCall j) = 0 := by
  rw [List.count_eq_zero]
  intro hmem
  rcases mem_tagRetry hmem with h' | h' <;> simp_all

@[simp]
theorem count_tagRetry_reconfig (k : Nat) (evs : List REv) :
    (tagRetry k evs).count PEv.reconfig = 0 := by
  rw [List.count_eq_zero]
  intro hmem
  rcases mem_tagRetry hmem with h' | h' <;> simp_all

theorem U32_MOD_eq : U32_MOD = 2 ^ 32 := by norm_num [U32_MOD]

theorem loopStep_counter (w f : Except Unit Unit) (ts : Nat) (st : LState) :
    (loopStep w f ts st).1.counter = (st.counter + 1) % U32_MOD := by
  rcases hf : st.file with _ | u <;> rcases w with e | v <;>
    simp only [loopStep, hf] <;> try rfl
  split <;> rfl

theorem loopStep_file (w f : Except Unit Unit) (ts : Nat) (st : LState) :
    (loopStep w f ts st).1.file = st.file := by
  rcases hf : st.file with _ | u <;> rcases w with e | v <;>
    simp only [loopStep, hf] <;> try rfl
  split <;> rfl

/-- With no file handle, an iteration only bumps the counter: no events. -/
theorem loopStep_none (w f : Except Unit Unit) (ts : Nat) (st : LState)
    (h : st.file = none) :
    loopStep w f ts st =
      ({ counter := (st.counter + 1) % U32_MOD, file := none }, []) := by
  simp only [loopStep, h]

/-- With no file handle, any number of iterations emits no events and never
acquires a file handle. -/
theorem loopRun_none (wr fr : Nat → Except Unit Unit) (ts : Nat → Nat) :
    ∀ (n i : Nat) (st : LState), st.file = none →
      (loopRun wr fr ts i n st).2 = [] ∧
        (loopRun wr fr ts i n st).1.file = none := by
  intro n
  induction n with
  | zero => intro i st h; exact ⟨rfl, h⟩
  | succ n ih =>
    intro i st h
    rw [loopRun, loopStep_none (wr i) (fr i) (ts i) st h]
    have := ih (i + 1)
      ({ counter := (st.counter + 1) % U32_MOD, file := none } : LState) rfl
    simpa using this

/-- The counter after `n` iterations starting below the wrap point is
`(counter + n) % 2^32`. -/
theorem loopRun_counter (wr fr : Nat → Except Unit Unit) (ts : Nat → Nat) :
    ∀ (n i : Nat) (st : LState), st.counter < U32_MOD →
      (loopRun wr fr ts i n st).1.counter = (st.counter + n) % U32_MOD := by
  intro n
  induction n with
  | zero =>
    intro i st h
    simp [loopRun, Nat.mod_eq_of_lt h]
  | succ n ih =>
    intro i st h
    rw [loopRun]
    have h1 := loopStep_counter (wr i) (fr i) (ts i) st
    have h2 := ih (i + 1) (loopStep (wr i) (fr i) (ts i) st).1
      (by rw [h1]; exact Nat.mod_lt _ (by norm_num [U32_MOD]))
    simp only [h2, h1, U32_MOD]
    omega

/-- Flush characterization of one iteration: a flush happens exactly when a
file handle is present, the record write succeeded, and the incremented
counter is a multiple of 10. -/
theorem loopStep_flush_iff (w f : Except Unit Unit) (ts : Nat)
    (st : LState) :
    LEv.flush ∈ (loopStep w f ts st).2 ↔
      (st.file.isSome = true ∧ w.isOk = true ∧
        ((st.counter + 1) % U32_MOD) % 10 = 0) := by
  rcases hf : st.file with _ | u
  · simp [loopStep, hf]
  · rcases w with e | v
    · simp [loopStep, hf, Except.isOk, Except.toBool]
    · by_cases hc : ((st.counter + 1) % U32_MOD) % 10 = 0 <;>
        simp [loopStep, hf, hc, Except.isOk, Except.toBool]

/-- With a file handle present, every iteration attempts exactly one record
write, whatever the write and flush outcomes. -/
theorem loopStep_one_write (w f : Except Unit Unit) (ts : Nat) (st : LState)
    (h : st.file.isSome = true) :
    countWrites (loopStep w f ts st).2 = 1 := by
  rcases hf : st.file with _ | u
  · rw [hf] at h; simp at h
  · rcases w with e | v
    · simp [loopStep, hf, countWrites, isWriteEv]
    · by_cases hc : ((st.counter + 1) % U32_MOD) % 10 = 0 <;>
        simp [loopStep, hf, hc, countWrites, isWriteEv, List.countP_cons]

/-- C2: for every operation whose every one of `MAX_RETRIES` (= 4) attempts
fails, `retry_with_backoff` returns `none`, invokes the operation exactly
`MAX_RETRIES` times, and invokes the inter-attempt delay exactly
`MAX_RETRIES - 1 = 3` times.  It is a total function into `Option`, so it
neither raises nor terminates the process. -/
theorem retry_exhausted_counts {ε α : Type} (op : Nat → Except ε α)
    (h : ∀ i, 1 ≤ i → i ≤ MAX_RETRIES → ∃ e, op i = Except.error e) :
    (retry_with_backoff op).1 = none ∧
      (retry_with_backoff op).2.count REv.call = MAX_RETRIES ∧
      (retry_with_backoff op).2.count REv.delay = MAX_RETRIES - 1 := by
  rw [retry_trace_all_fail op h]
  refine ⟨rfl, ?_, ?_⟩ <;> rfl

/-- Witness for C2 at the operation that always fails. -/
theorem retry_exhausted_counts_witness :
    (retry_with_backoff fun _ => (Except.error () : Except Unit Unit)).1 =
        none ∧
      (retry_with_backoff fun _ =>
        (Except.error () : Except Unit Unit)).2.count REv.call =
          MAX_RETRIES ∧
      (retry_with_backoff fun _ =>
        (Except.error () : Except Unit Unit)).2.count REv.delay =
          MAX_RETRIES - 1 :=
  retry_exhausted_counts _ (fun _ _ _ => ⟨(), rfl⟩)

/-- Witness for C3 at `k = 2`: two failures, then success with value 7. -/
theorem retry_trace_succeeds_after_witness :
    (retry_with_backoff fun i =>
        if i ≤ 2 then (Except.error () : Except Unit Nat)
        else Except.ok 7).1 = some 7 ∧
      (retry_with_backoff fun i =>
        if i ≤ 2 then (Except.error () : Except Unit Nat)
        else Except.ok 7).2.count REv.call = 2 + 1 ∧
      (retry_with_backoff fun i =>
        if i ≤ 2 then (Except.error () : Except Unit Nat)
        else Except.ok 7).2.count REv.delay = 2 :=
  retry_trace_succeeds_after _ 2 7 (by decide)
    (fun i h1 h2 => ⟨(), by rw [if_pos h2]⟩)
    (by rfl)

/-- Byte-copying never changes the buffer's length (pair form). -/
theorem foldl_writeByte_length_pair (bs : List Nat) (bc : List Nat × Nat) :
    ((bs.foldl writeByte bc).1).length = bc.1.length := by
  rcases bc with ⟨buf, c⟩
  exact foldl_writeByte_length bs buf c

/-- Byte-copying keeps the cursor within the buffer (pair form). -/
theorem foldl_writeByte_cursor_le_pair (bs : List Nat) (bc : List Nat × Nat)
    (h : bc.2 ≤ bc.1.length) : (bs.foldl writeByte bc).2 ≤ bc.1.length := by
  rcases bc with ⟨buf, c⟩
  exact foldl_writeByte_cursor_le bs buf c h

/-- Part-by-part copying never changes the buffer's length. -/
theorem foldl_write_parts_length (parts : List (List Nat)) :
    ∀ bc : List Nat × Nat,
      ((parts.foldl (fun bc part => part.foldl writeByte bc) bc).1).length =
        bc.1.length := by
  induction parts with
  | nil => intro bc; rfl
  | cons p parts ih =>
    intro bc
    rw [List.foldl_cons, ih (p.foldl writeByte bc),
      foldl_writeByte_length_pair]

/-- Part-by-part copying keeps the cursor within the buffer. -/
theorem foldl_write_parts_cursor_le (parts : List (List Nat)) :
    ∀ bc : List Nat × Nat, bc.2 ≤ bc.1.length →
      (parts.foldl (fun bc part => part.foldl writeByte bc) bc).2 ≤
        bc.1.length := by
  induction parts with
  | nil => intro bc h; exact h
  | cons p parts ih =>
    intro bc h
    rw [List.foldl_cons]
    have h1 := foldl_writeByte_cursor_le_pair p bc h
    have h2 := foldl_writeByte_length_pair p bc
    have := ih (p.foldl writeByte bc) (by omega)
    omega

/-- C8: formatting timestamp 1000 and counter 42 into any buffer of at
least the needed 14 bytes yields exactly the bytes of `"1000,count,42\n"`
at the front of the buffer, and returns exactly 14. -/
theorem format_1000_42 (buffer : List Nat) (h : 14 ≤ buffer.length) :
    (format_csv_line buffer 1000 42).2 = 14 ∧
      (format_csv_line buffer 1000 42).1.take 14 =
        [49, 48, 48, 48, 44, 99, 111, 117, 110, 116, 44, 52, 50, 10] := by
  have hline : csvLine 1000 42 =
      [49, 48, 48, 48, 44, 99, 111, 117, 110, 116, 44, 52, 50, 10] := by
    rfl
  have hlen14 : (csvLine 1000 42).length = 14 := by rw [hline]; rfl
  have key := format_csv_line_spec buffer 1000 42 (by omega)
  constructor
  · rw [key, hlen14]
  · rw [key]
    simp only [← hlen14, List.take_left]
    exact hline

/-- Witness for C8 at a buffer of exactly 14 zero bytes. -/
theorem format_1000_42_witness :
    14 ≤ (List.replicate 14 0 : List Nat).length ∧
      ((format_csv_line (List.replicate 14 0) 1000 42).2 = 14 ∧
        (format_csv_line (List.replicate 14 0) 1000 42).1.take 14 =
          [49, 48, 48, 48, 44, 99, 111, 117, 110, 116, 44, 52, 50, 10]) :=
  ⟨by decide, format_1000_42 (List.replicate 14 0) (by decide)⟩

/-- C9: `format_csv_line` writes only inside the buffer (the buffer keeps
its length) and returns a count bounded by the buffer's length, for every
buffer, timestamp and counter; for a `u64` timestamp and `u32` counter the
complete line is at most 38 ≤ 64 bytes, so with the loop's 64-byte buffer
the line is written whole, never truncated. -/
theorem format_csv_line_safe (buffer : List Nat) (timestamp counter : Nat) :
    ((format_csv_line buffer timestamp counter).1).length = buffer.length ∧
      (format_csv_line buffer timestamp counter).2 ≤ buffer.length ∧
      (timestamp < 2 ^ 64 → counter < 2 ^ 32 →
        (csvLine timestamp counter).length ≤ 38 ∧
          (64 ≤ buffer.length →
            (format_csv_line buffer timestamp counter).2 =
                (csvLine timestamp counter).length ∧
              (format_csv_line buffer timestamp counter).1.take
                  (csvLine timestamp counter).length =
                csvLine timestamp counter)) := by
  refine ⟨?_, ?_, ?_⟩
  · rw [format_csv_line]
    exact foldl_write_parts_length _ (buffer, 0)
  · rw [format_csv_line]
    exact foldl_write_parts_cursor_le _ (buffer, 0) (by simp)
  · intro ht hc
    have h38 := csvLine_length_le timestamp counter ht hc
    refine ⟨h38, fun h64 => ?_⟩
    have key := format_csv_line_spec buffer timestamp counter (by omega)
    rw [key]
    exact ⟨rfl, List.take_left _ _⟩

/-- Witness for C9 at the loop's buffer (64 zero bytes), timestamp 1000,
counter 42. -/
theorem format_csv_line_safe_witness :
    ((format_csv_line (List.replicate 64 0) 1000 42).1).length =
        (List.replicate 64 0 : List Nat).length ∧
      (format_csv_line (List.replicate 64 0) 1000 42).2 ≤
        (List.replicate 64 0 : List Nat).length ∧
      (csvLine 1000 42).length ≤ 38 ∧
      (format_csv_line (List.replicate 64 0) 1000 42).2 =
        (csvLine 1000 42).length ∧
      (format_csv_line (List.replicate 64 0) 1000 42).1.take
          (csvLine 1000 42).length = csvLine 1000 42 := by
  have h := format_csv_line_safe (List.replicate 64 0) 1000 42
  have h3 := h.2.2 (by norm_num) (by norm_num)
  have h4 := h3.2 (by decide)
  exact ⟨h.1, h.2.1, h3.1, h4.1, h4.2⟩

/-- Every charset byte is printable ASCII (in particular below 128). -/
theorem CHARS_lt_128 : ∀ c ∈ CHARS, c < 128 := by decide

/-- Indexing the charset at a reduced index picks a charset element. -/
theorem CHARS_getD_mem (x : Nat) :
    CHARS.getD (x % CHARS.length) 0 ∈ CHARS := by
  have h : x % CHARS.length < CHARS.length :=
    Nat.mod_lt _ (by decide)
  rw [List.getD_eq_getElem _ _ h]
  exact List.getElem_mem h

/-- C10: for every RNG state, `generate_random_filename` produces 12 bytes:
8 leading bytes drawn from the 36-character charset, then `".CSV"`; every
byte is ASCII (< 128), so decoding the filename as UTF-8 in `main` always
succeeds. -/
theorem generate_random_filename_spec (rng : Nat → Nat) :
    (generate_random_filename rng).length = 12 ∧
      (∀ i, i < 8 → (generate_random_filename rng).getD i 0 ∈ CHARS) ∧
      (generate_random_filename rng).drop 8 = [46, 67, 83, 86] ∧
      ∀ b ∈ generate_random_filename rng, b < 128 := by
  refine ⟨generate_random_filename_length rng, ?_, ?_, ?_⟩
  · intro i hi
    have hlen : ((List.range 8).map
        (fun i => CHARS.getD ((rng i % 2 ^ 32) % CHARS.length) 0)).length =
          8 := by simp
    have hi' : i < ((List.range 8).map
        (fun i => CHARS.getD ((rng i % 2 ^ 32) % CHARS.length) 0)).length := by
      omega
    rw [generate_random_filename,
      List.getD_eq_getElem _ _ (by simp; omega),
      List.getElem_append_left hi']
    simp only [List.getElem_map, List.getElem_range]
    exact CHARS_getD_mem _
  · rw [generate_random_filename]
    apply List.drop_left'
    simp
  · intro b hb
    rw [generate_random_filename, List.mem_append] at hb
    rcases hb with hb | hb
    · rw [List.mem_map] at hb
      obtain ⟨i, _, rfl⟩ := hb
      exact CHARS_lt_128 _ (CHARS_getD_mem _)
    · simp only [List.mem_cons, List.not_mem_nil, or_false] at hb
      rcases hb with rfl | rfl | rfl | rfl <;> norm_num

/-- Witness for C10 at the constantly-zero RNG stream. -/
theorem generate_random_filename_spec_witness :
    (generate_random_filename fun _ => 0).getD 0 0 ∈ CHARS ∧
      (generate_random_filename fun _ => 0).drop 8 = [46, 67, 83, 86] :=
  ⟨((generate_random_filename_spec fun _ => 0).2.1 0 (by decide)),
    (generate_random_filename_spec fun _ => 0).2.2.1⟩

theorem gatedRetry_false {ε α : Type} (op : Nat → Except ε α) :
    gatedRetry false op = (none, []) := rfl

theorem runPipeline_sd_size (s1 : Nat → Except Unit Nat)
    (s2 s3 s4 s5 : Nat → Except Unit Unit) (rOk : Bool) :
    (runPipeline s1 s2 s3 s4 s5 rOk).sd_size = (pipeR1 s1).1 := by
  cases rOk <;> rfl

theorem runPipeline_volume0 (s1 : Nat → Except Unit Nat)
    (s2 s3 s4 s5 : Nat → Except Unit Unit) (rOk : Bool) :
    (runPipeline s1 s2 s3 s4 s5 rOk).volume0 = (pipeR2 s1 s2).1 := by
  cases rOk <;> rfl

theorem runPipeline_root_dir (s1 : Nat → Except Unit Nat)
    (s2 s3 s4 s5 : Nat → Except Unit Unit) (rOk : Bool) :
    (runPipeline s1 s2 s3 s4 s5 rOk).root_dir = (pipeR3 s1 s2 s3).1 := by
  cases rOk <;> rfl

theorem runPipeline_file0 (s1 : Nat → Except Unit Nat)
    (s2 s3 s4 s5 : Nat → Except Unit Unit) (rOk : Bool) :
    (runPipeline s1 s2 s3 s4 s5 rOk).file0 =
      if rOk then (pipeR4 s1 s2 s3 s4).1 else none := by
  cases rOk <;> rfl

theorem runPipeline_trace (s1 : Nat → Except Unit Nat)
    (s2 s3 s4 s5 : Nat → Except Unit Unit) (rOk : Bool) :
    (runPipeline s1 s2 s3 s4 s5 rOk).trace =
      tagRetry 1 (pipeR1 s1).2 ++ tagRetry 2 (pipeR2 s1 s2).2 ++
        tagRetry 3 (pipeR3 s1 s2 s3).2 ++ [PEv.reconfig] ++
        (if rOk then
          tagRetry 4 (pipeR4 s1 s2 s3 s4).2 ++
            tagRetry 5 (pipeR5 s1 s2 s3 s4 s5).2
         else []) := by
  cases rOk <;> simp [runPipeline, List.append_assoc]

theorem tagRetry_nil (k : Nat) : tagRetry k [] = [] := rfl

theorem count_singleton_reconfig_stageCall (j : Nat) :
    ([PEv.reconfig] : List PEv).count (PEv.stageCall j) = 0 := by
  rw [List.count_eq_zero]
  simp

/-- C1: for every `k` in `{1,2,3,4}`, pipeline stage `k+1` (volume open,
root-directory open, file open, header write) is never attempted when stage
`k` produced an absent result: stage `k+1`'s operation is not invoked at
all (its call count in the trace is zero) when the gating value of stage
`k` is `None`. -/
theorem pipeline_stage_gating (s1 : Nat → Except Unit Nat)
    (s2 s3 s4 s5 : Nat → Except Unit Unit) (rOk : Bool) :
    ((runPipeline s1 s2 s3 s4 s5 rOk).sd_size = none →
      (runPipeline s1 s2 s3 s4 s5 rOk).trace.count (PEv.stageCall 2) = 0) ∧
    ((runPipeline s1 s2 s3 s4 s5 rOk).volume0 = none →
      (runPipeline s1 s2 s3 s4 s5 rOk).trace.count (PEv.stageCall 3) = 0) ∧
    ((runPipeline s1 s2 s3 s4 s5 rOk).root_dir = none →
      (runPipeline s1 s2 s3 s4 s5 rOk).trace.count (PEv.stageCall 4) = 0) ∧
    ((runPipeline s1 s2 s3 s4 s5 rOk).file0 = none →
      (runPipeline s1 s2 s3 s4 s5 rOk).trace.count (PEv.stageCall 5) = 0) := by
  refine ⟨fun h => ?_, fun h => ?_, fun h => ?_, fun h => ?_⟩
  · rw [runPipeline_sd_size] at h
    have h2 : pipeR2 s1 s2 = (none, []) := by rw [pipeR2, h]; rfl
    rw [runPipeline_trace]
    cases rOk <;>
      simp [h2, tagRetry_nil, List.count_append,
        count_singleton_reconfig_stageCall]
  · rw [runPipeline_volume0] at h
    have h3 : pipeR3 s1 s2 s3 = (none, []) := by rw [pipeR3, h]; rfl
    rw [runPipeline_trace]
    cases rOk <;>
      simp [h3, tagRetry_nil, List.count_append,
        count_singleton_reconfig_stageCall]
  · rw [runPipeline_root_dir] at h
    have h4 : pipeR4 s1 s2 s3 s4 = (none, []) := by rw [pipeR4, h]; rfl
    rw [runPipeline_trace]
    cases rOk <;>
      simp [h4, tagRetry_nil, List.count_append,
        count_singleton_reconfig_stageCall]
  · rw [runPipeline_file0] at h
    rw [runPipeline_trace]
    cases rOk
    · simp [List.count_append, count_singleton_reconfig_stageCall]
    · simp only [if_true] at h
      have h5 : pipeR5 s1 s2 s3 s4 s5 = (none, []) := by rw [pipeR5, h]; rfl
      simp [h5, tagRetry_nil, List.count_append,
        count_singleton_reconfig_stageCall]

/-- Witness for C1: with every stage operation failing on every attempt,
all four gating values are `None` and stages 2–5 are never invoked. -/
theorem pipeline_stage_gating_witness :
    (runPipeline (fun _ => Except.error ()) (fun _ => Except.error ())
        (fun _ => Except.error ()) (fun _ => Except.error ())
        (fun _ => Except.error ()) true).trace.count (PEv.stageCall 2) = 0 ∧
    (runPipeline (fun _ => Except.error ()) (fun _ => Except.error ())
        (fun _ => Except.error ()) (fun _ => Except.error ())
        (fun _ => Except.error ()) true).trace.count (PEv.stageCall 3) = 0 ∧
    (runPipeline (fun _ => Except.error ()) (fun _ => Except.error ())
        (fun _ => Except.error ()) (fun _ => Except.error ())
        (fun _ => Except.error ()) true).trace.count (PEv.stageCall 4) = 0 ∧
    (runPipeline (fun _ => Except.error ()) (fun _ => Except.error ())
        (fun _ => Except.error ()) (fun _ => Except.error ())
        (fun _ => Except.error ()) true).trace.count (PEv.stageCall 5) = 0 :=
  ⟨(pipeline_stage_gating _ _ _ _ _ _).1 rfl,
   (pipeline_stage_gating _ _ _ _ _ _).2.1 rfl,
   (pipeline_stage_gating _ _ _ _ _ _).2.2.1 rfl,
   (pipeline_stage_gating _ _ _ _ _ _).2.2.2 rfl⟩

theorem evStage_mem_tagRetry {e : PEv} {k : Nat} {evs : List REv}
    (h : e ∈ tagRetry k evs) : evStage e = k := by
  rcases mem_tagRetry h with rfl | rfl <;> rfl

/-- C7: the bus speed reconfiguration happens exactly once, unconditionally,
positioned after all stage-1..3 events and before all stage-4..5 events,
whatever the stage outcomes; and if the reconfiguration fails, the process
panics (fail-fast) and stages 4 and 5 are never invoked. -/
theorem bus_reconfig_once (s1 : Nat → Except Unit Nat)
    (s2 s3 s4 s5 : Nat → Except Unit Unit) (rOk : Bool) :
    (runPipeline s1 s2 s3 s4 s5 rOk).trace.count PEv.reconfig = 1 ∧
    (∃ pre post, (runPipeline s1 s2 s3 s4 s5 rOk).trace =
        pre ++ PEv.reconfig :: post ∧
      (∀ e ∈ pre, 1 ≤ evStage e ∧ evStage e ≤ 3) ∧
      (∀ e ∈ post, 4 ≤ evStage e ∧ evStage e ≤ 5)) ∧
    (rOk = false → (runPipeline s1 s2 s3 s4 s5 rOk).panicked = true ∧
      (runPipeline s1 s2 s3 s4 s5 rOk).trace.count (PEv.stageCall 4) = 0 ∧
      (runPipeline s1 s2 s3 s4 s5 rOk).trace.count (PEv.stageCall 5) = 0) := by
  refine ⟨?_, ?_, ?_⟩
  · rw [runPipeline_trace]
    cases rOk <;>
      simp [List.count_append, List.count_cons, count_tagRetry_reconfig]
  · cases rOk <;>
      refine ⟨tagRetry 1 (pipeR1 s1).2 ++ tagRetry 2 (pipeR2 s1 s2).2 ++
        tagRetry 3 (pipeR3 s1 s2 s3).2, ?_, ?_, ?_, ?_⟩
    case refine_2.false.refine_1 => exact []
    case refine_2.false.refine_2 =>
      rw [runPipeline_trace]
      simp [List.append_assoc]
    case refine_2.false.refine_3 =>
      intro e he
      simp only [List.append_assoc, List.mem_append] at he
      rcases he with he | he | he <;> rw [evStage_mem_tagRetry he] <;> omega
    case refine_2.false.refine_4 =>
      intro e he
      simp at he
    case refine_2.true.refine_1 =>
      exact tagRetry 4 (pipeR4 s1 s2 s3 s4).2 ++
        tagRetry 5 (pipeR5 s1 s2 s3 s4 s5).2
    case refine_2.true.refine_2 =>
      rw [runPipeline_trace]
      simp [List.append_assoc]
    case refine_2.true.refine_3 =>
      intro e he
      simp only [List.append_assoc, List.mem_append] at he
      rcases he with he | he | he <;> rw [evStage_mem_tagRetry he] <;> omega
    case refine_2.true.refine_4 =>
      intro e he
      simp only [List.mem_append] at he
      rcases he with he | he <;> rw [evStage_mem_tagRetry he] <;> omega
  · intro hr
    subst hr
    refine ⟨rfl, ?_, ?_⟩ <;>
      simp [runPipeline, List.count_append,
        count_singleton_reconfig_stageCall]

/-- Witness for C7 with a failing reconfiguration: the process panics, the
reconfiguration still appears exactly once in the trace, and stages 4 and 5
are never invoked. -/
theorem bus_reconfig_once_witness :
    (runPipeline (fun _ => Except.ok 0) (fun _ => Except.ok ())
        (fun _ => Except.ok ()) (fun _ => Except.ok ())
        (fun _ => Except.ok ()) false).trace.count PEv.reconfig = 1 ∧
    (runPipeline (fun _ => Except.ok 0) (fun _ => Except.ok ())
        (fun _ => Except.ok ()) (fun _ => Except.ok ())
        (fun _ => Except.ok ()) false).panicked = true ∧
    (runPipeline (fun _ => Except.ok 0) (fun _ => Except.ok ())
        (fun _ => Except.ok ()) (fun _ => Except.ok ())
        (fun _ => Except.ok ()) false).trace.count (PEv.stageCall 4) = 0 ∧
    (runPipeline (fun _ => Except.ok 0) (fun _ => Except.ok ())
        (fun _ => Except.ok ()) (fun _ => Except.ok ())
        (fun _ => Except.ok ()) false).trace.count (PEv.stageCall 5) = 0 :=
  ⟨(bus_reconfig_once _ _ _ _ _ _).1,
   ((bus_reconfig_once _ _ _ _ _ _).2.2 rfl).1,
   ((bus_reconfig_once _ _ _ _ _ _).2.2 rfl).2.1,
   ((bus_reconfig_once _ _ _ _ _ _).2.2 rfl).2.2⟩

theorem gatedRetry_true {ε α : Type} (op : Nat → Except ε α) :
    gatedRetry true op = retry_with_backoff op := rfl

/-- Counterexample to C4 as stated: with stages 1–4 succeeding and the
header write failing exactly once (attempt 1 fails, attempt 2 succeeds),
the header stage is retried by the executor and succeeds, so the file
handle is NOT discarded — the pipeline hands the loop `some` file. -/
theorem header_fails_once_file_kept :
    (fun i => if i = 1 then (Except.error () : Except Unit Unit)
      else Except.ok ()) 1 = Except.error () ∧
    (runPipeline (fun _ => Except.ok 0) (fun _ => Except.ok ())
        (fun _ => Except.ok ()) (fun _ => Except.ok ())
        (fun i => if i = 1 then Except.error () else Except.ok ())
        true).file0 = some () ∧
    (runPipeline (fun _ => Except.ok 0) (fun _ => Except.ok ())
        (fun _ => Except.ok ()) (fun _ => Except.ok ())
        (fun i => if i = 1 then Except.error () else Except.ok ())
        true).file = some () :=
  ⟨rfl, rfl, rfl⟩

/-- C4 (amended): if stages 1–4 succeed and the header write fails
definitively (on all `MAX_RETRIES` attempts of its stage), the file handle
is discarded (`file = none`) before the loop starts, and every subsequent
loop iteration behaves exactly as if no file handle was ever obtained:
zero record writes and zero flushes. -/
theorem header_definitive_failure_discards_file (s1 : Nat → Except Unit Nat)
    (s2 s3 s4 s5 : Nat → Except Unit Unit)
    (h4 : (runPipeline s1 s2 s3 s4 s5 true).file0 = some ())
    (h5 : ∀ i, 1 ≤ i → i ≤ MAX_RETRIES → ∃ e, s5 i = Except.error e) :
    (runPipeline s1 s2 s3 s4 s5 true).file = none ∧
    ∀ (wr fr : Nat → Except Unit Unit) (ts : Nat → Nat) (i n : Nat),
      countWrites (loopRun wr fr ts i n
        ⟨0, (runPipeline s1 s2 s3 s4 s5 true).file⟩).2 = 0 ∧
      LEv.flush ∉ (loopRun wr fr ts i n
        ⟨0, (runPipeline s1 s2 s3 s4 s5 true).file⟩).2 := by
  rw [runPipeline_file0] at h4
  simp only [if_true] at h4
  have hp5 : pipeR5 s1 s2 s3 s4 s5 =
      (none, [REv.call, REv.delay, REv.call, REv.delay, REv.call, REv.delay,
              REv.call]) := by
    rw [pipeR5, h4]
    rw [show (some () : Option Unit).isSome = true from rfl, gatedRetry_true]
    exact retry_trace_all_fail s5 h5
  have hfile : (runPipeline s1 s2 s3 s4 s5 true).file = none := by
    simp [runPipeline, h4, hp5]
  refine ⟨hfile, ?_⟩
  intro wr fr ts i n
  rw [hfile]
  have h := loopRun_none wr fr ts n i ⟨0, none⟩ rfl
  rw [h.1]
  exact ⟨rfl, by simp⟩

/-- Witness for C4 (amended): stages 1–4 succeed at once, the header write
fails on every attempt; the loop (run here for 3 iterations) emits no
events. -/
theorem header_definitive_failure_discards_file_witness :
    (runPipeline (fun _ => Except.ok 0) (fun _ => Except.ok ())
        (fun _ => Except.ok ()) (fun _ => Except.ok ())
        (fun _ => Except.error ()) true).file = none ∧
    countWrites (loopRun (fun _ => Except.ok ()) (fun _ => Except.ok ())
        (fun _ => 0) 1 3
        ⟨0, (runPipeline (fun _ => Except.ok 0) (fun _ => Except.ok ())
          (fun _ => Except.ok ()) (fun _ => Except.ok ())
          (fun _ => Except.error ()) true).file⟩).2 = 0 :=
  ⟨(header_definitive_failure_discards_file (fun _ => Except.ok 0)
      (fun _ => Except.ok ()) (fun _ => Except.ok ()) (fun _ => Except.ok ())
      (fun _ => Except.error ()) rfl (fun _ _ _ => ⟨(), rfl⟩)).1,
   ((header_definitive_failure_discards_file (fun _ => Except.ok 0)
      (fun _ => Except.ok ()) (fun _ => Except.ok ()) (fun _ => Except.ok ())
      (fun _ => Except.error ()) rfl (fun _ _ _ => ⟨(), rfl⟩)).2
      (fun _ => Except.ok ()) (fun _ => Except.ok ()) (fun _ => 0) 1 3).1⟩

/-- Counterexample to C5 as stated: in an iteration with a file handle
present whose counter value 10 is a positive multiple of 10, a failing
record write suppresses the flush — the durability trigger does not fire
on the counter value alone. -/
theorem flush_skipped_on_write_error :
    (loopStep (Except.error ()) (Except.ok ()) 0
        ⟨9, some ()⟩).1.counter = 10 ∧
    (10 : Nat) % 10 = 0 ∧
    LEv.flush ∉ (loopStep (Except.error ()) (Except.ok ()) 0
        ⟨9, some ()⟩).2 := by
  refine ⟨rfl, rfl, ?_⟩
  decide

/-- C5 (amended): in an iteration with a file handle present, the buffer is
flushed (the flush outcome itself being ignored) if and only if the
iteration's record write succeeded and the counter is a multiple of 10; no
iteration without a file handle flushes; and starting from the initial
counter 0 the counter after `n` iterations is `n % 2^32`, so the trigger
observes only the positive values `1, 2, …` until `u32` wrap-around. -/
theorem flush_iff_write_ok_and_multiple_of_ten
    (w f : Except Unit Unit) (ts : Nat) (st : LState)
    (wr fr : Nat → Except Unit Unit) (tss : Nat → Nat) (i n : Nat)
    (fh : Option Unit) :
    (LEv.flush ∈ (loopStep w f ts st).2 ↔
      (st.file.isSome = true ∧ w.isOk = true ∧
        ((st.counter + 1) % U32_MOD) % 10 = 0)) ∧
    (loopRun wr fr tss i n ⟨0, fh⟩).1.counter = n % U32_MOD := by
  refine ⟨loopStep_flush_iff w f ts st, ?_⟩
  have := loopRun_counter wr fr tss n i ⟨0, fh⟩ (by norm_num [U32_MOD])
  simpa using this

/-- C6: a failing steady-state record write leaves the session state intact
(the file handle stays present, the counter still increments), is attempted
exactly once (not retried) and flushes nothing, and the next iteration
still attempts its own single write. -/
theorem single_write_failure_recovery
    (f : Except Unit Unit) (ts : Nat) (st : LState) (e : Unit)
    (h : st.file = some ())
    (w2 f2 : Except Unit Unit) (ts2 : Nat) :
    (loopStep (Except.error e) f ts st).1.file = some () ∧
    (loopStep (Except.error e) f ts st).1.counter =
      (st.counter + 1) % U32_MOD ∧
    countWrites (loopStep (Except.error e) f ts st).2 = 1 ∧
    LEv.flush ∉ (loopStep (Except.error e) f ts st).2 ∧
    countWrites
      (loopStep w2 f2 ts2 (loopStep (Except.error e) f ts st).1).2 = 1 := by
  have hfile := loopStep_file (Except.error e) f ts st
  refine ⟨by rw [hfile, h], loopStep_counter _ _ _ _,
    loopStep_one_write _ _ _ _ (by rw [h]; rfl), ?_,
    loopStep_one_write _ _ _ _ (by rw [hfile, h]; rfl)⟩
  rw [loopStep_flush_iff]
  simp [Except.isOk, Except.toBool]

/-- Witness for C6 at counter 0 with a failing first write and a succeeding
second write. -/
theorem single_write_failure_recovery_witness :
    (loopStep (Except.error ()) (Except.ok ()) 0 ⟨0, some ()⟩).1.file =
        some () ∧
      countWrites (loopStep (Except.error ()) (Except.ok ()) 0
        ⟨0, some ()⟩).2 = 1 ∧
      countWrites (loopStep (Except.ok ()) (Except.ok ()) 5
        (loopStep (Except.error ()) (Except.ok ()) 0 ⟨0, some ()⟩).1).2 = 1 :=
  ⟨(single_write_failure_recovery (Except.ok ()) 0 ⟨0, some ()⟩ () rfl
      (Except.ok ()) (Except.ok ()) 5).1,
   (single_write_failure_recovery (Except.ok ()) 0 ⟨0, some ()⟩ () rfl
      (Except.ok ()) (Except.ok ()) 5).2.2.1,
   (single_write_failure_recovery (Except.ok ()) 0 ⟨0, some ()⟩ () rfl
      (Except.ok ()) (Except.ok ()) 5).2.2.2.2⟩

end Esp32Sdcard

